import Mathlib

/-!
Verification development for the Aurora WebGL renderer (`src/js/Aurora.js`).

The JavaScript/GLSL source is shallowly embedded below: GLSL float
arithmetic is modelled exactly over a linear ordered field (instantiated
at `ℚ` for executable reasoning and at `ℝ` where the shader's `exp` is
involved), fallible JavaScript numeric results (`NaN` from `parseInt`)
are modelled by `Option`, and the DOM/GL side effects of `resizeCanvas`
and the Canvas-2D fallback are modelled as explicit result records /
paint-command lists.
-/

section GlslPrimitives

variable {α : Type} [LinearOrderedField α]

/-- GLSL `floor`, returned in the carrier field. -/
def glslFloor [FloorRing α] (x : α) : α := ⌊x⌋

/-- GLSL `fract(x) = x - floor(x)`. -/
def glslFract [FloorRing α] (x : α) : α := x - glslFloor x

/-- GLSL `mod(x, y) = x - y * floor(x/y)`. -/
def glslMod [FloorRing α] (x y : α) : α := x - y * glslFloor (x / y)

/-- GLSL `mix(x, y, a) = x*(1-a) + y*a`. -/
def glslMix (x y a : α) : α := x * (1 - a) + y * a

/-- GLSL `clamp(x, lo, hi) = min(max(x, lo), hi)`. -/
def glslClamp (x lo hi : α) : α := min (max x lo) hi

/-- GLSL `smoothstep(e0, e1, x)`: cubic Hermite ease between the edges. -/
def smoothstep (e0 e1 x : α) : α :=
  let t := glslClamp ((x - e0) / (e1 - e0)) 0 1
  t * t * (3 - 2 * t)

/-- GLSL `float(bool)`: `true ↦ 1.0`, `false ↦ 0.0`. -/
def boolFloat (b : Bool) : α := if b then 1 else 0

/-- GLSL `int(float)`: truncation toward zero. -/
def glslIntCast [FloorRing α] (x : α) : ℤ := if x < 0 then -⌊-x⌋ else ⌊x⌋

end GlslPrimitives

/-- A GLSL `vec3` over the model field. -/
structure Vec3 (α : Type) where
  x : α
  y : α
  z : α
deriving DecidableEq, Repr

section Snoise

variable {α : Type} [LinearOrderedField α] [FloorRing α]

/-- The shader's `permute(x) = mod(((x*34.0)+1.0)*x, 289.0)`, one component. -/
def permuteScalar (x : α) : α := glslMod (((x * 34) + 1) * x) 289

/-- Componentwise `permute` on a `vec3`. -/
def permute (v : Vec3 α) : Vec3 α :=
  ⟨permuteScalar v.x, permuteScalar v.y, permuteScalar v.z⟩

/-- The shader's 2-D simplex-style gradient noise `snoise(v)`, transcribed
from the fragment shader with `vec2`/`vec4` swizzles spelled out
componentwise. -/
def snoise (vx vy : α) : α :=
  let Cx : α := 0.211324865405187
  let Cy : α := 0.366025403784439
  let Cz : α := -0.577350269189626
  let Cw : α := 0.024390243902439
  -- i = floor(v + dot(v, C.yy))
  let ix : α := glslFloor (vx + (vx * Cy + vy * Cy))
  let iy : α := glslFloor (vy + (vx * Cy + vy * Cy))
  -- x0 = v - i + dot(i, C.xx)
  let x0x : α := vx - ix + (ix * Cx + iy * Cx)
  let x0y : α := vy - iy + (ix * Cx + iy * Cx)
  -- i1 = (x0.x > x0.y) ? vec2(1,0) : vec2(0,1)
  let i1x : α := if x0y < x0x then 1 else 0
  let i1y : α := if x0y < x0x then 0 else 1
  -- x12 = x0.xyxy + C.xxzz; x12.xy -= i1
  let x12x : α := x0x + Cx - i1x
  let x12y : α := x0y + Cx - i1y
  let x12z : α := x0x + Cz
  let x12w : α := x0y + Cz
  -- i = mod(i, 289.0)
  let imx : α := glslMod ix 289
  let imy : α := glslMod iy 289
  -- p = permute(permute(i.y + vec3(0, i1.y, 1)) + i.x + vec3(0, i1.x, 1))
  let inner : Vec3 α := permute ⟨imy, imy + i1y, imy + 1⟩
  let p : Vec3 α := permute ⟨inner.x + imx, inner.y + imx + i1x, inner.z + imx + 1⟩
  -- m = max(0.5 - vec3(dot(x0,x0), dot(x12.xy,x12.xy), dot(x12.zw,x12.zw)), 0.0)
  let m0 : α := max (0.5 - (x0x * x0x + x0y * x0y)) 0
  let m1 : α := max (0.5 - (x12x * x12x + x12y * x12y)) 0
  let m2 : α := max (0.5 - (x12z * x12z + x12w * x12w)) 0
  -- m = m*m; m = m*m
  let m0a : α := (m0 * m0) * (m0 * m0)
  let m1a : α := (m1 * m1) * (m1 * m1)
  let m2a : α := (m2 * m2) * (m2 * m2)
  -- x = 2.0 * fract(p * C.www) - 1.0
  let xx : α := 2 * glslFract (p.x * Cw) - 1
  let xy : α := 2 * glslFract (p.y * Cw) - 1
  let xz : α := 2 * glslFract (p.z * Cw) - 1
  -- h = abs(x) - 0.5
  let hx : α := |xx| - 0.5
  let hy : α := |xy| - 0.5
  let hz : α := |xz| - 0.5
  -- ox = floor(x + 0.5); a0 = x - ox
  let a0x : α := xx - glslFloor (xx + 0.5)
  let a0y : α := xy - glslFloor (xy + 0.5)
  let a0z : α := xz - glslFloor (xz + 0.5)
  -- m *= 1.79284291400159 - 0.85373472095314 * (a0*a0 + h*h)
  let mfx : α := m0a * (1.79284291400159 - 0.85373472095314 * (a0x * a0x + hx * hx))
  let mfy : α := m1a * (1.79284291400159 - 0.85373472095314 * (a0y * a0y + hy * hy))
  let mfz : α := m2a * (1.79284291400159 - 0.85373472095314 * (a0z * a0z + hz * hz))
  -- g.x = a0.x*x0.x + h.x*x0.y ; g.yz = a0.yz*x12.xz + h.yz*x12.yw
  let gx : α := a0x * x0x + hx * x0y
  let gy : α := a0y * x12x + hy * x12y
  let gz : α := a0z * x12z + hz * x12w
  130 * (mfx * gx + mfy * gy + mfz * gz)

end Snoise

section ColorRamp

variable {α : Type} [LinearOrderedField α]

/-- The shader's `ColorStop` struct: a color and a ramp position. -/
structure ColorStop (α : Type) where
  color : Vec3 α
  position : α
deriving DecidableEq, Repr

/-- Indexing into the shader's `ColorStop colors[3]` array. Dynamic indices
reaching this model are always 0, 1 or 2. -/
def csGet (cs : ColorStop α × ColorStop α × ColorStop α) (i : ℤ) : ColorStop α :=
  if i = 1 then cs.2.1 else if i = 2 then cs.2.2 else cs.1

/-- The array built in both `main`s:
`colors[0] = (stop0, 0.0); colors[1] = (stop1, 0.5); colors[2] = (stop2, 1.0)`. -/
def anchorStops (s0 s1 s2 : Vec3 α) : ColorStop α × ColorStop α × ColorStop α :=
  (⟨s0, 0⟩, ⟨s1, 0.5⟩, ⟨s2, 1⟩)

/-- The WebGL1 fragment shader's `colorRamp` function, with the
constant-bound `for (int i = 0; i < 2; i++)` loop unrolled. -/
def colorRamp (cs : ColorStop α × ColorStop α × ColorStop α) (factor : α) : Vec3 α :=
  let index0 : ℤ := 0
  let index1 : ℤ := if (csGet cs 0).position ≤ factor then 0 else index0
  let index2 : ℤ := if (csGet cs 1).position ≤ factor then 1 else index1
  let currentColor := csGet cs index2
  let nextColor := csGet cs (index2 + 1)
  let range := nextColor.position - currentColor.position
  let lerpFactor := (factor - currentColor.position) / range
  ⟨glslMix currentColor.color.x nextColor.color.x lerpFactor,
   glslMix currentColor.color.y nextColor.color.y lerpFactor,
   glslMix currentColor.color.z nextColor.color.z lerpFactor⟩

/-- The WebGL2 fragment shader's `COLOR_RAMP` preprocessor block, with the
loop unrolled: the running index is updated through
`int(mix(float(index), float(i), float(isInBetween)))`. -/
def colorRampV2 [FloorRing α] (cs : ColorStop α × ColorStop α × ColorStop α)
    (factor : α) : Vec3 α :=
  let index0 : ℤ := 0
  let isInBetween0 : Bool := decide ((csGet cs 0).position ≤ factor)
  let index1 : ℤ :=
    glslIntCast (glslMix ((index0 : ℤ) : α) ((0 : ℤ) : α) (boolFloat isInBetween0))
  let isInBetween1 : Bool := decide ((csGet cs 1).position ≤ factor)
  let index2 : ℤ :=
    glslIntCast (glslMix ((index1 : ℤ) : α) ((1 : ℤ) : α) (boolFloat isInBetween1))
  let currentColor := csGet cs index2
  let nextColor := csGet cs (index2 + 1)
  let range := nextColor.position - currentColor.position
  let lerpFactor := (factor - currentColor.position) / range
  ⟨glslMix currentColor.color.x nextColor.color.x lerpFactor,
   glslMix currentColor.color.y nextColor.color.y lerpFactor,
   glslMix currentColor.color.z nextColor.color.z lerpFactor⟩

end ColorRamp

section Compositor

/-- The WebGL2 fragment shader's `main`, per pixel: `uv` is the normalized
fragment coordinate, the uniforms are `uTime`, `uAmplitude`, `uBlend` and
the three `uColorStops`. Returns `(fragColor.rgb, fragColor.a)`. The GLSL
`exp` is modelled by `Real.exp`. -/
noncomputable def mainWebGL2 (uTime uAmplitude uBlend : ℝ)
    (uColorStops0 uColorStops1 uColorStops2 : Vec3 ℝ) (uv : ℝ × ℝ) :
    Vec3 ℝ × ℝ :=
  let colors := anchorStops uColorStops0 uColorStops1 uColorStops2
  let rampColor : Vec3 ℝ := colorRampV2 colors uv.1
  let height0 : ℝ := snoise (uv.1 * 2.0 + uTime * 0.1) (uTime * 0.25) * 0.5 * uAmplitude
  let height1 : ℝ := Real.exp height0
  let height2 : ℝ := uv.2 * 2.0 - height1 + 0.2
  let intensity : ℝ := 0.6 * height2
  let midPoint : ℝ := 0.20
  let auroraAlpha : ℝ :=
    smoothstep (midPoint - uBlend * 0.5) (midPoint + uBlend * 0.5) intensity
  let auroraColor : Vec3 ℝ :=
    ⟨intensity * rampColor.x, intensity * rampColor.y, intensity * rampColor.z⟩
  (⟨auroraColor.x * auroraAlpha, auroraColor.y * auroraAlpha, auroraColor.z * auroraAlpha⟩,
   auroraAlpha)

end Compositor

section HexParsing

/-- Digit recognition of JavaScript `parseInt(·, 16)`: value of one
hexadecimal character (`0-9`, `a-f`, `A-F`), `none` otherwise. -/
def hexDigitVal (c : Char) : Option ℕ :=
  let n := c.toNat
  if 48 ≤ n ∧ n ≤ 57 then some (n - 48)
  else if 97 ≤ n ∧ n ≤ 102 then some (n - 87)
  else if 65 ≤ n ∧ n ≤ 70 then some (n - 55)
  else none

/-- Accumulated value of a run of hexadecimal digit characters. -/
def hexNatVal (ds : List Char) : ℕ :=
  ds.foldl (fun acc c => 16 * acc + (hexDigitVal c).getD 0) 0

/-- The whitespace characters `parseInt` skips at the front. -/
def isJsSpace (c : Char) : Bool := c = ' ' ∨ c = '\t' ∨ c = '\n' ∨ c = '\r'

/-- JavaScript `parseInt(s, 16)`: skip leading whitespace, an optional
sign, an optional `0x`/`0X` prefix, then read the maximal run of hex
digits; `none` models the `NaN` result when that run is empty. -/
def parseIntSixteen (s : List Char) : Option ℤ :=
  let s1 := s.dropWhile isJsSpace
  let neg : Bool := s1.head? = some '-'
  let s2 := if s1.head? = some '-' ∨ s1.head? = some '+' then s1.tail else s1
  let s3 :=
    if s2.head? = some '0' ∧ (s2.tail.head? = some 'x' ∨ s2.tail.head? = some 'X')
    then s2.tail.tail else s2
  let ds := s3.takeWhile (fun c => (hexDigitVal c).isSome)
  if ds.isEmpty then none
  else some ((if neg then -1 else 1) * (hexNatVal ds : ℤ))

/-- JavaScript `hex.replace(/^#/, '')`: strip one leading `#`. -/
def stripHash (l : List Char) : List Char :=
  match l with
  | c :: rest => if c = '#' then rest else l
  | [] => l

/-- JavaScript `s.charAt(i)`: the one-character string at `i`, or the
empty string out of range. -/
def jsCharAt (l : List Char) (i : ℕ) : List Char :=
  match l.get? i with
  | some c => [c]
  | none => []

/-- JavaScript `s.substring(a, b)` for `a ≤ b`. -/
def jsSubstring (l : List Char) (a b : ℕ) : List Char := (l.drop a).take (b - a)

/-- The source's `Aurora.hexToRgb`: channels are `parseInt(pair, 16) / 255`; a `none`
channel models the `NaN` a failed `parseInt` propagates. -/
def hexToRgb (hex : List Char) : Option ℚ × Option ℚ × Option ℚ :=
  let h := stripHash hex
  if h.length = 3 then
    ((parseIntSixteen (jsCharAt h 0 ++ jsCharAt h 0)).map (fun n => (n : ℚ) / 255),
     (parseIntSixteen (jsCharAt h 1 ++ jsCharAt h 1)).map (fun n => (n : ℚ) / 255),
     (parseIntSixteen (jsCharAt h 2 ++ jsCharAt h 2)).map (fun n => (n : ℚ) / 255))
  else
    ((parseIntSixteen (jsSubstring h 0 2)).map (fun n => (n : ℚ) / 255),
     (parseIntSixteen (jsSubstring h 2 4)).map (fun n => (n : ℚ) / 255),
     (parseIntSixteen (jsSubstring h 4 6)).map (fun n => (n : ℚ) / 255))

end HexParsing

section Resize

/-- JavaScript `a || b` on numbers (no `NaN` in the rational model):
`a` when truthy (nonzero), else `b`. -/
def jsOrQ (a b : ℚ) : ℚ := if a = 0 then b else a

/-- The layout environment `resizeCanvas` reads: container
`offsetWidth`/`offsetHeight`, `clientWidth`/`clientHeight`,
`window.innerWidth`/`innerHeight` and `window.devicePixelRatio`. -/
structure ResizeEnv where
  offsetW : ℚ
  offsetH : ℚ
  clientW : ℚ
  clientH : ℚ
  innerW : ℚ
  innerH : ℚ
  dpr : ℚ
deriving DecidableEq, Repr

/-- What one `resizeCanvas` call does: the backing-buffer dimensions it
assigns, and whether it issued `gl.viewport` / the `uResolution`
`uniform2f` update in this very invocation. -/
structure ResizeResult where
  width : ℚ
  height : ℚ
  viewportUpdated : Bool
  resolutionUniformUpdated : Bool
deriving DecidableEq, Repr

/-- The source's `Aurora.resizeCanvas`, with the GL handle, the linked program and the
resolved `uResolution` location abstracted to readiness flags. -/
def resizeCanvas (e : ResizeEnv) (glReady progReady resLocReady : Bool) : ResizeResult :=
  let containerWidth := jsOrQ e.offsetW (jsOrQ e.clientW e.innerW)
  let containerHeight := jsOrQ e.offsetH (jsOrQ e.clientH e.innerH)
  if 0 < containerWidth ∧ 0 < containerHeight then
    let pixelRatio := jsOrQ e.dpr 1
    { width := containerWidth * pixelRatio
      height := containerHeight * pixelRatio
      viewportUpdated := glReady
      resolutionUniformUpdated := glReady && (progReady && resLocReady) }
  else
    let pixelRatio := jsOrQ e.dpr 1
    { width := max e.innerW 1200 * pixelRatio
      height := max 500 (e.innerH * 0.6) * pixelRatio
      viewportUpdated := false
      resolutionUniformUpdated := false }

end Resize

section Fallback

/-- A `CanvasGradient` produced by `createLinearGradient(x0,y0,x1,y1)`
plus its `addColorStop(offset, color)` calls, colors kept as the raw hex
strings the source hands over. -/
structure Gradient where
  x0 : ℚ
  y0 : ℚ
  x1 : ℚ
  y1 : ℚ
  stops : List (ℚ × List Char)
deriving DecidableEq, Repr

/-- One Canvas-2D paint command issued by the fallback loop. -/
inductive PaintOp where
  | clearRect (x y w h : ℚ)
  | fillRect (x y w h : ℚ) (style : Gradient)
deriving DecidableEq, Repr

/-- The gradient `fallbackToCanvas2D` builds once:
`createLinearGradient(0, 0, canvas.width, 0)` with
`addColorStop(index / (colorStops.length - 1), color)` per stop. -/
def buildFallbackGradient (canvasWidth : ℚ) (colorStops : List (List Char)) : Gradient :=
  { x0 := 0, y0 := 0, x1 := canvasWidth, y1 := 0
    stops := colorStops.enum.map
      (fun p => ((p.1 : ℚ) / ((colorStops.length : ℚ) - 1), p.2)) }

/-- One tick of the fallback's `animate` closure: clear the full canvas,
then fill the full canvas with the captured gradient. The tick index is a
parameter only to record that the paint sequence never depends on it. -/
def fallbackTick (canvasWidth canvasHeight : ℚ) (colorStops : List (List Char))
    (tick : ℕ) : List PaintOp :=
  let gradient := buildFallbackGradient canvasWidth colorStops
  [PaintOp.clearRect 0 0 canvasWidth canvasHeight,
   PaintOp.fillRect 0 0 canvasWidth canvasHeight gradient]

end Fallback

section OptionsMerge

/-- The caller-supplied `options` object. `none` on a numeric field models
an absent / `undefined` / `null` entry, `some x` an explicitly passed
number; for `colorStops`, `none` models any falsy value (absent,
`undefined`, `null` — an actual array is always truthy in JavaScript). -/
structure AuroraOptions where
  colorStops : Option (List (List Char))
  blend : Option ℚ
  amplitude : Option ℚ
  speed : Option ℚ

/-- JavaScript `v || d` for an optional numeric option: the default wins
whenever the passed value is falsy (absent or zero). -/
def jsOrOpt (v : Option ℚ) (d : ℚ) : ℚ :=
  match v with
  | none => d
  | some x => if x = 0 then d else x

/-- The default color stops of the constructor. -/
def defaultColorStops : List (List Char) :=
  [['#', '3', 'A', '2', '9', 'F', 'F'],
   ['#', 'F', 'F', '9', '4', 'B', '4'],
   ['#', 'F', 'F', '3', '2', '3', '2']]

/-- The merged configuration record. -/
structure EffectConfig where
  colorStops : List (List Char)
  blend : ℚ
  amplitude : ℚ
  speed : ℚ
deriving DecidableEq, Repr

/-- The constructor's `this.options = { ... }` merge via `||`. -/
def mergeOptions (o : AuroraOptions) : EffectConfig :=
  { colorStops := o.colorStops.getD defaultColorStops
    blend := jsOrOpt o.blend 0.5
    amplitude := jsOrOpt o.amplitude 1.0
    speed := jsOrOpt o.speed 0.5 }

end OptionsMerge

section Helpers

variable {α : Type} [LinearOrderedField α]

lemma glslMix_zero (x y : α) : glslMix x y 0 = x := by
  simp [glslMix]

lemma glslMix_one (x y : α) : glslMix x y 1 = y := by
  simp [glslMix]

lemma glslIntCast_intCast [FloorRing α] (n : ℤ) : glslIntCast ((n : ℤ) : α) = n := by
  unfold glslIntCast
  by_cases h : ((n : ℤ) : α) < 0
  · rw [if_pos h, ← Int.cast_neg, Int.floor_intCast, neg_neg]
  · rw [if_neg h, Int.floor_intCast]

lemma smoothstep_mono {e0 e1 : ℚ} (h : e0 < e1) {x₁ x₂ : ℚ} (hx : x₁ ≤ x₂) :
    smoothstep e0 e1 x₁ ≤ smoothstep e0 e1 x₂ := by
  simp only [smoothstep, glslClamp]
  have hd : (0 : ℚ) < e1 - e0 := sub_pos.mpr h
  set t₁ := min (max ((x₁ - e0) / (e1 - e0)) 0) 1 with ht₁
  set t₂ := min (max ((x₂ - e0) / (e1 - e0)) 0) 1 with ht₂
  have hdiv : (x₁ - e0) / (e1 - e0) ≤ (x₂ - e0) / (e1 - e0) :=
    (div_le_div_right hd).mpr (by linarith)
  have h12 : t₁ ≤ t₂ := min_le_min (max_le_max hdiv le_rfl) le_rfl
  have h0 : 0 ≤ t₁ := le_min (le_max_right _ _) (by norm_num)
  have h1 : t₂ ≤ 1 := min_le_right _ _
  nlinarith [mul_nonneg (mul_nonneg (sub_nonneg.mpr h12) h0) (sub_nonneg.mpr (h12.trans h1)),
    mul_nonneg (mul_nonneg (sub_nonneg.mpr h12) (h0.trans h12)) (sub_nonneg.mpr h1),
    mul_nonneg (mul_nonneg (sub_nonneg.mpr h12) h0) (sub_nonneg.mpr h1),
    mul_nonneg (mul_nonneg (sub_nonneg.mpr h12) (h0.trans h12))
      (sub_nonneg.mpr (h12.trans h1))]

lemma smoothstep_of_le {e0 e1 x : ℚ} (h : e0 < e1) (hx : x ≤ e0) :
    smoothstep e0 e1 x = 0 := by
  simp only [smoothstep, glslClamp]
  have hd : (0 : ℚ) < e1 - e0 := sub_pos.mpr h
  have hu : (x - e0) / (e1 - e0) ≤ 0 :=
    div_nonpos_of_nonpos_of_nonneg (by linarith) hd.le
  rw [max_eq_right hu, min_eq_left (by norm_num : (0:ℚ) ≤ 1)]
  ring

lemma smoothstep_of_ge {e0 e1 x : ℚ} (h : e0 < e1) (hx : e1 ≤ x) :
    smoothstep e0 e1 x = 1 := by
  simp only [smoothstep, glslClamp]
  have hd : (0 : ℚ) < e1 - e0 := sub_pos.mpr h
  have hu : (1 : ℚ) ≤ (x - e0) / (e1 - e0) := (one_le_div hd).mpr (by linarith)
  rw [max_eq_left (le_trans (by norm_num) hu), min_eq_right hu]
  ring

end Helpers

/-- C2: with the three stops anchored at ramp positions 0.0, 0.5, 1.0, the
color ramp at `uv.x = 0` returns exactly `stop[0]`, at `uv.x = 1` exactly
`stop[2]`, and at `uv.x = 0.25` the midpoint blend (average) of `stop[0]`
and `stop[1]`. -/
theorem colorRamp_anchor_values (s0 s1 s2 : Vec3 ℚ) :
    colorRamp (anchorStops s0 s1 s2) 0 = s0 ∧
    colorRamp (anchorStops s0 s1 s2) 1 = s2 ∧
    colorRamp (anchorStops s0 s1 s2) 0.25 =
      ⟨(s0.x + s1.x) / 2, (s0.y + s1.y) / 2, (s0.z + s1.z) / 2⟩ := by
  refine ⟨?_, ?_, ?_⟩ <;>
    norm_num [colorRamp, anchorStops, csGet, glslMix] <;>
    refine ⟨by ring, by ring, by ring⟩

/-- C3: for fixed `blend` in (0,1], the fragment shaders' alpha
`smoothstep(0.20 - blend*0.5, 0.20 + blend*0.5, intensity)` is monotonically
non-decreasing in the intensity, is exactly 0 for every intensity at most
`0.20 - blend/2`, and exactly 1 for every intensity at least
`0.20 + blend/2`. -/
theorem auroraAlpha_monotone_saturates (b x₁ x₂ : ℚ) (hb0 : 0 < b) (hb1 : b ≤ 1) :
    (x₁ ≤ x₂ →
      smoothstep (0.20 - b * 0.5) (0.20 + b * 0.5) x₁ ≤
        smoothstep (0.20 - b * 0.5) (0.20 + b * 0.5) x₂) ∧
    (x₁ ≤ 0.20 - b / 2 → smoothstep (0.20 - b * 0.5) (0.20 + b * 0.5) x₁ = 0) ∧
    (0.20 + b / 2 ≤ x₁ → smoothstep (0.20 - b * 0.5) (0.20 + b * 0.5) x₁ = 1) := by
  have he : (0.20 : ℚ) - b * 0.5 < 0.20 + b * 0.5 := by linarith
  exact ⟨fun hx => smoothstep_mono he hx,
    fun hx => smoothstep_of_le he (by linarith),
    fun hx => smoothstep_of_ge he (by linarith)⟩

/-- Witness for C3 at `blend = 1/2`: monotonicity from intensity 0 to 1,
saturation at 0 for intensity `-1` and at 1 for intensity `1`. -/
theorem auroraAlpha_monotone_saturates_witness :
    (0 : ℚ) < 1/2 ∧ (1/2 : ℚ) ≤ 1 ∧
    smoothstep (0.20 - (1/2 : ℚ) * 0.5) (0.20 + (1/2 : ℚ) * 0.5) 0 ≤
      smoothstep (0.20 - (1/2 : ℚ) * 0.5) (0.20 + (1/2 : ℚ) * 0.5) 1 ∧
    smoothstep (0.20 - (1/2 : ℚ) * 0.5) (0.20 + (1/2 : ℚ) * 0.5) (-1) = 0 ∧
    smoothstep (0.20 - (1/2 : ℚ) * 0.5) (0.20 + (1/2 : ℚ) * 0.5) 1 = 1 :=
  ⟨by norm_num, by norm_num,
   (auroraAlpha_monotone_saturates (1/2) 0 1 (by norm_num) (by norm_num)).1
     (by norm_num),
   (auroraAlpha_monotone_saturates (1/2) (-1) 1 (by norm_num) (by norm_num)).2.1
     (by norm_num),
   (auroraAlpha_monotone_saturates (1/2) 1 0 (by norm_num) (by norm_num)).2.2
     (by norm_num)⟩

/-- C4: on stops anchored at positions 0.0/0.5/1.0 and any factor in
[0,1], the WebGL2 `COLOR_RAMP` macro and the WebGL1 inline `colorRamp`
function compute identical results. -/
theorem colorRamp_variants_agree (s0 s1 s2 : Vec3 ℚ) (factor : ℚ)
    (h0 : 0 ≤ factor) (h1 : factor ≤ 1) :
    colorRampV2 (anchorStops s0 s1 s2) factor =
      colorRamp (anchorStops s0 s1 s2) factor := by
  by_cases hB : (1 / 2 : ℚ) ≤ factor <;>
    norm_num [colorRampV2, colorRamp, anchorStops, csGet, glslIntCast, glslMix,
      boolFloat, hB, h0]

/-- Witness for C4 at factor `1/4` with concrete stop colors. -/
theorem colorRamp_variants_agree_witness :
    (0 : ℚ) ≤ 1/4 ∧ (1/4 : ℚ) ≤ 1 ∧
    colorRampV2 (anchorStops (⟨1, 0, 0⟩ : Vec3 ℚ) ⟨0, 1, 0⟩ ⟨0, 0, 1⟩) (1/4) =
      colorRamp (anchorStops (⟨1, 0, 0⟩ : Vec3 ℚ) ⟨0, 1, 0⟩ ⟨0, 0, 1⟩) (1/4) :=
  ⟨by norm_num, by norm_num,
   colorRamp_variants_agree ⟨1, 0, 0⟩ ⟨0, 1, 0⟩ ⟨0, 0, 1⟩ (1/4)
     (by norm_num) (by norm_num)⟩

/-- C1: for every normalized pixel coordinate in the unit square, every
time value and every config, the WebGL2 per-pixel compositor computes
`height = exp(snoise(uv.x*2 + time*0.1, time*0.25) * 0.5 * amplitude)`,
`intensity = 0.6 * (uv.y*2 - height + 0.2)`, and outputs the
premultiplied color `intensity * rampColor * alpha` with alpha channel
`alpha = smoothstep(0.2 - blend/2, 0.2 + blend/2, intensity)`. -/
theorem mainWebGL2_formula (uTime uAmplitude uBlend : ℝ)
    (s0 s1 s2 : Vec3 ℝ) (uv : ℝ × ℝ)
    (h0 : 0 ≤ uv.1) (h1 : uv.1 ≤ 1) (h2 : 0 ≤ uv.2) (h3 : uv.2 ≤ 1) :
    mainWebGL2 uTime uAmplitude uBlend s0 s1 s2 uv =
      (let height : ℝ :=
         Real.exp (snoise (uv.1 * 2 + uTime * 0.1) (uTime * 0.25) * 0.5 * uAmplitude)
       let intensity : ℝ := 0.6 * (uv.2 * 2 - height + 0.2)
       let rampColor : Vec3 ℝ := colorRampV2 (anchorStops s0 s1 s2) uv.1
       let alpha : ℝ := smoothstep (0.2 - uBlend / 2) (0.2 + uBlend / 2) intensity
       (⟨intensity * rampColor.x * alpha, intensity * rampColor.y * alpha,
         intensity * rampColor.z * alpha⟩, alpha)) := by
  simp only [mainWebGL2]
  norm_num
  ring_nf
  tauto

/-- Witness for C1 at `uv = (0,0)`, `time = 0`, `amplitude = 1`,
`blend = 1/2`, unit-axis color stops. -/
theorem mainWebGL2_formula_witness :
    mainWebGL2 0 1 (1/2) ⟨1, 0, 0⟩ ⟨0, 1, 0⟩ ⟨0, 0, 1⟩ ((0 : ℝ), (0 : ℝ)) =
      (let height : ℝ :=
         Real.exp (snoise ((0 : ℝ) * 2 + 0 * 0.1) ((0 : ℝ) * 0.25) * 0.5 * 1)
       let intensity : ℝ := 0.6 * ((0 : ℝ) * 2 - height + 0.2)
       let rampColor : Vec3 ℝ :=
         colorRampV2 (anchorStops ⟨1, 0, 0⟩ ⟨0, 1, 0⟩ ⟨0, 0, 1⟩) (0 : ℝ)
       let alpha : ℝ :=
         smoothstep (0.2 - (1/2 : ℝ) / 2) (0.2 + (1/2 : ℝ) / 2) intensity
       (⟨intensity * rampColor.x * alpha, intensity * rampColor.y * alpha,
         intensity * rampColor.z * alpha⟩, alpha)) :=
  mainWebGL2_formula 0 1 (1/2) ⟨1, 0, 0⟩ ⟨0, 1, 0⟩ ⟨0, 0, 1⟩ ((0 : ℝ), (0 : ℝ))
    (by norm_num) (by norm_num) (by norm_num) (by norm_num)

section HexLemmas

lemma hexDigitVal_le {c : Char} {v : ℕ} (h : hexDigitVal c = some v) : v ≤ 15 := by
  simp only [hexDigitVal] at h
  split_ifs at h with h1 h2 h3
  · simp only [Option.some.injEq] at h; omega
  · simp only [Option.some.injEq] at h; omega
  · simp only [Option.some.injEq] at h; omega

lemma hexDigitVal_getD_le {c : Char} (h : (hexDigitVal c).isSome) :
    (hexDigitVal c).getD 0 ≤ 15 := by
  obtain ⟨v, hv⟩ := Option.isSome_iff_exists.mp h
  rw [hv]
  exact hexDigitVal_le hv

lemma hex_not_special {c : Char} (h : (hexDigitVal c).isSome) :
    isJsSpace c = false ∧ c ≠ '-' ∧ c ≠ '+' ∧ c ≠ 'x' ∧ c ≠ 'X' ∧ c ≠ '#' := by
  refine ⟨?_, ?_, ?_, ?_, ?_, ?_⟩
  · by_contra hs
    have hs' : isJsSpace c = true := by
      cases hb : isJsSpace c
      · exact absurd hb hs
      · rfl
    have : c = ' ' ∨ c = '\t' ∨ c = '\n' ∨ c = '\r' := by
      simpa [isJsSpace] using hs'
    rcases this with rfl | rfl | rfl | rfl <;> exact absurd h (by decide)
  · intro rfl_eq; rw [rfl_eq] at h; exact absurd h (by decide)
  · intro rfl_eq; rw [rfl_eq] at h; exact absurd h (by decide)
  · intro rfl_eq; rw [rfl_eq] at h; exact absurd h (by decide)
  · intro rfl_eq; rw [rfl_eq] at h; exact absurd h (by decide)
  · intro rfl_eq; rw [rfl_eq] at h; exact absurd h (by decide)

lemma stripHash_all_hex {l : List Char} (hall : ∀ c ∈ l, (hexDigitVal c).isSome) :
    stripHash l = l := by
  cases l with
  | nil => rfl
  | cons a r =>
    have ha := (hex_not_special (hall a (by simp))).2.2.2.2.2
    simp [stripHash, ha]

lemma parseIntSixteen_all_hex {l : List Char} (hne : l ≠ [])
    (hall : ∀ c ∈ l, (hexDigitVal c).isSome) :
    parseIntSixteen l = some ((hexNatVal l : ℕ) : ℤ) := by
  obtain ⟨a, r, rfl⟩ : ∃ a r, l = a :: r := by
    cases l with
    | nil => exact absurd rfl hne
    | cons a r => exact ⟨a, r, rfl⟩
  have ha := hex_not_special (hall a (by simp))
  have hdrop : (a :: r).dropWhile isJsSpace = a :: r := by
    rw [List.dropWhile_cons, ha.1]
    simp
  have hxpre : ¬((a :: r).head? = some '0' ∧
      ((a :: r).tail.head? = some 'x' ∨ (a :: r).tail.head? = some 'X')) := by
    rintro ⟨-, hx | hx⟩ <;>
    · cases r with
      | nil => simp at hx
      | cons b r' =>
        simp only [List.tail_cons, List.head?_cons, Option.some.injEq] at hx
        have hb := hex_not_special (hall b (by simp))
        first
        | exact hb.2.2.2.1 hx
        | exact hb.2.2.2.2.1 hx
  have htake : (a :: r).takeWhile (fun c => (hexDigitVal c).isSome) = a :: r :=
    List.takeWhile_eq_self_iff.mpr fun c hc => hall c hc
  simp only [parseIntSixteen, hdrop, List.head?_cons, List.tail_cons,
    Option.some.injEq]
  simp [ha.2.1, ha.2.2.1, htake,
    (by simpa only [List.head?_cons, List.tail_cons, Option.some.injEq] using hxpre :
      ¬(a = '0' ∧ (r.head? = some 'x' ∨ r.head? = some 'X')))]

end HexLemmas

lemma hexPair_parse (a b : Char) (ha : (hexDigitVal a).isSome)
    (hb : (hexDigitVal b).isSome) :
    parseIntSixteen [a, b] =
      some ((16 * (hexDigitVal a).getD 0 + (hexDigitVal b).getD 0 : ℕ) : ℤ) := by
  rw [parseIntSixteen_all_hex (by simp)
    (by intro c hc; simp only [List.mem_cons, List.not_mem_nil, or_false] at hc
        rcases hc with rfl | rfl <;> assumption)]
  congr 1
  have : hexNatVal [a, b] =
      16 * (hexDigitVal a).getD 0 + (hexDigitVal b).getD 0 := by
    simp only [hexNatVal, List.foldl_cons, List.foldl_nil]
    omega
  rw [this]

lemma hexChannel_bounds (u v : Char) (hu : (hexDigitVal u).isSome)
    (hv : (hexDigitVal v).isSome) :
    0 ≤ (((16 * (hexDigitVal u).getD 0 + (hexDigitVal v).getD 0 : ℕ) : ℚ) / 255) ∧
      (((16 * (hexDigitVal u).getD 0 + (hexDigitVal v).getD 0 : ℕ) : ℚ) / 255) ≤ 1 := by
  have hu' := hexDigitVal_getD_le hu
  have hv' := hexDigitVal_getD_le hv
  constructor
  · positivity
  · rw [div_le_one (by norm_num)]
    have h255 : (16 * (hexDigitVal u).getD 0 + (hexDigitVal v).getD 0 : ℕ) ≤ 255 := by
      omega
    exact_mod_cast h255

/-- C5: every 6-digit hex color string (optionally `#`-prefixed) maps to
channels `digitPair/255`, each in `[0,1]`, and every 3-digit hex string
maps to the same triple as the 6-digit string obtained by duplicating each
digit. -/
theorem hexToRgb_wellFormed (c0 c1 c2 c3 c4 c5 : Char)
    (h0 : (hexDigitVal c0).isSome) (h1 : (hexDigitVal c1).isSome)
    (h2 : (hexDigitVal c2).isSome) (h3 : (hexDigitVal c3).isSome)
    (h4 : (hexDigitVal c4).isSome) (h5 : (hexDigitVal c5).isSome) :
    hexToRgb [c0, c1, c2, c3, c4, c5] =
      (some (((16 * (hexDigitVal c0).getD 0 + (hexDigitVal c1).getD 0 : ℕ) : ℚ) / 255),
       some (((16 * (hexDigitVal c2).getD 0 + (hexDigitVal c3).getD 0 : ℕ) : ℚ) / 255),
       some (((16 * (hexDigitVal c4).getD 0 + (hexDigitVal c5).getD 0 : ℕ) : ℚ) / 255)) ∧
    hexToRgb ('#' :: [c0, c1, c2, c3, c4, c5]) = hexToRgb [c0, c1, c2, c3, c4, c5] ∧
    (0 ≤ (((16 * (hexDigitVal c0).getD 0 + (hexDigitVal c1).getD 0 : ℕ) : ℚ) / 255) ∧
      (((16 * (hexDigitVal c0).getD 0 + (hexDigitVal c1).getD 0 : ℕ) : ℚ) / 255) ≤ 1) ∧
    (0 ≤ (((16 * (hexDigitVal c2).getD 0 + (hexDigitVal c3).getD 0 : ℕ) : ℚ) / 255) ∧
      (((16 * (hexDigitVal c2).getD 0 + (hexDigitVal c3).getD 0 : ℕ) : ℚ) / 255) ≤ 1) ∧
    (0 ≤ (((16 * (hexDigitVal c4).getD 0 + (hexDigitVal c5).getD 0 : ℕ) : ℚ) / 255) ∧
      (((16 * (hexDigitVal c4).getD 0 + (hexDigitVal c5).getD 0 : ℕ) : ℚ) / 255) ≤ 1) ∧
    hexToRgb [c0, c1, c2] = hexToRgb [c0, c0, c1, c1, c2, c2] := by
  have hall6 : ∀ c ∈ [c0, c1, c2, c3, c4, c5], (hexDigitVal c).isSome := by
    intro c hc
    simp only [List.mem_cons, List.not_mem_nil, or_false] at hc
    rcases hc with rfl | rfl | rfl | rfl | rfl | rfl <;> assumption
  have hall3 : ∀ c ∈ [c0, c1, c2], (hexDigitVal c).isSome := by
    intro c hc
    simp only [List.mem_cons, List.not_mem_nil, or_false] at hc
    rcases hc with rfl | rfl | rfl <;> assumption
  have halldup : ∀ c ∈ [c0, c0, c1, c1, c2, c2], (hexDigitVal c).isSome := by
    intro c hc
    simp only [List.mem_cons, List.not_mem_nil, or_false] at hc
    rcases hc with rfl | rfl | rfl | rfl | rfl | rfl <;> assumption
  have hsh6 : stripHash [c0, c1, c2, c3, c4, c5] = [c0, c1, c2, c3, c4, c5] :=
    stripHash_all_hex hall6
  have hshH : stripHash ('#' :: [c0, c1, c2, c3, c4, c5]) =
      [c0, c1, c2, c3, c4, c5] := by
    simp [stripHash]
  have hsh3 : stripHash [c0, c1, c2] = [c0, c1, c2] := stripHash_all_hex hall3
  have hshdup : stripHash [c0, c0, c1, c1, c2, c2] = [c0, c0, c1, c1, c2, c2] :=
    stripHash_all_hex halldup
  have s1 : jsSubstring [c0, c1, c2, c3, c4, c5] 0 2 = [c0, c1] := rfl
  have s2 : jsSubstring [c0, c1, c2, c3, c4, c5] 2 4 = [c2, c3] := rfl
  have s3 : jsSubstring [c0, c1, c2, c3, c4, c5] 4 6 = [c4, c5] := rfl
  have d1 : jsSubstring [c0, c0, c1, c1, c2, c2] 0 2 = [c0, c0] := rfl
  have d2 : jsSubstring [c0, c0, c1, c1, c2, c2] 2 4 = [c1, c1] := rfl
  have d3 : jsSubstring [c0, c0, c1, c1, c2, c2] 4 6 = [c2, c2] := rfl
  have e6 : hexToRgb [c0, c1, c2, c3, c4, c5] =
      (some (((16 * (hexDigitVal c0).getD 0 + (hexDigitVal c1).getD 0 : ℕ) : ℚ) / 255),
       some (((16 * (hexDigitVal c2).getD 0 + (hexDigitVal c3).getD 0 : ℕ) : ℚ) / 255),
       some (((16 * (hexDigitVal c4).getD 0 + (hexDigitVal c5).getD 0 : ℕ) : ℚ) / 255)) := by
    simp only [hexToRgb, hsh6, List.length_cons, List.length_nil, s1, s2, s3,
      hexPair_parse c0 c1 h0 h1, hexPair_parse c2 c3 h2 h3,
      hexPair_parse c4 c5 h4 h5]
    norm_num
  have e6H : hexToRgb ('#' :: [c0, c1, c2, c3, c4, c5]) =
      (some (((16 * (hexDigitVal c0).getD 0 + (hexDigitVal c1).getD 0 : ℕ) : ℚ) / 255),
       some (((16 * (hexDigitVal c2).getD 0 + (hexDigitVal c3).getD 0 : ℕ) : ℚ) / 255),
       some (((16 * (hexDigitVal c4).getD 0 + (hexDigitVal c5).getD 0 : ℕ) : ℚ) / 255)) := by
    simp only [hexToRgb, hshH, List.length_cons, List.length_nil, s1, s2, s3,
      hexPair_parse c0 c1 h0 h1, hexPair_parse c2 c3 h2 h3,
      hexPair_parse c4 c5 h4 h5]
    norm_num
  have e3 : hexToRgb [c0, c1, c2] =
      (some (((16 * (hexDigitVal c0).getD 0 + (hexDigitVal c0).getD 0 : ℕ) : ℚ) / 255),
       some (((16 * (hexDigitVal c1).getD 0 + (hexDigitVal c1).getD 0 : ℕ) : ℚ) / 255),
       some (((16 * (hexDigitVal c2).getD 0 + (hexDigitVal c2).getD 0 : ℕ) : ℚ) / 255)) := by
    have t0 : jsCharAt [c0, c1, c2] 0 ++ jsCharAt [c0, c1, c2] 0 = [c0, c0] := rfl
    have t1 : jsCharAt [c0, c1, c2] 1 ++ jsCharAt [c0, c1, c2] 1 = [c1, c1] := rfl
    have t2 : jsCharAt [c0, c1, c2] 2 ++ jsCharAt [c0, c1, c2] 2 = [c2, c2] := rfl
    simp only [hexToRgb, hsh3, List.length_cons, List.length_nil, t0, t1, t2,
      hexPair_parse c0 c0 h0 h0, hexPair_parse c1 c1 h1 h1,
      hexPair_parse c2 c2 h2 h2]
    norm_num
  have e3dup : hexToRgb [c0, c0, c1, c1, c2, c2] =
      (some (((16 * (hexDigitVal c0).getD 0 + (hexDigitVal c0).getD 0 : ℕ) : ℚ) / 255),
       some (((16 * (hexDigitVal c1).getD 0 + (hexDigitVal c1).getD 0 : ℕ) : ℚ) / 255),
       some (((16 * (hexDigitVal c2).getD 0 + (hexDigitVal c2).getD 0 : ℕ) : ℚ) / 255)) := by
    simp only [hexToRgb, hshdup, List.length_cons, List.length_nil, d1, d2, d3,
      hexPair_parse c0 c0 h0 h0, hexPair_parse c1 c1 h1 h1,
      hexPair_parse c2 c2 h2 h2]
    norm_num
  exact ⟨e6, e6H.trans e6.symm, hexChannel_bounds c0 c1 h0 h1,
    hexChannel_bounds c2 c3 h2 h3, hexChannel_bounds c4 c5 h4 h5,
    e3.trans e3dup.symm⟩

/-- Witness for C5 on the all-`f` string: `"ffffff"`, `"#ffffff"` and
`"fff"` all map to the triple `(255/255, 255/255, 255/255)`. -/
theorem hexToRgb_wellFormed_witness :
    (hexDigitVal 'f').isSome ∧
    (hexToRgb ['f', 'f', 'f', 'f', 'f', 'f'] =
      (some (((16 * (hexDigitVal 'f').getD 0 + (hexDigitVal 'f').getD 0 : ℕ) : ℚ) / 255),
       some (((16 * (hexDigitVal 'f').getD 0 + (hexDigitVal 'f').getD 0 : ℕ) : ℚ) / 255),
       some (((16 * (hexDigitVal 'f').getD 0 + (hexDigitVal 'f').getD 0 : ℕ) : ℚ) / 255)) ∧
     hexToRgb ('#' :: ['f', 'f', 'f', 'f', 'f', 'f']) =
       hexToRgb ['f', 'f', 'f', 'f', 'f', 'f'] ∧
     (0 ≤ (((16 * (hexDigitVal 'f').getD 0 + (hexDigitVal 'f').getD 0 : ℕ) : ℚ) / 255) ∧
       (((16 * (hexDigitVal 'f').getD 0 + (hexDigitVal 'f').getD 0 : ℕ) : ℚ) / 255) ≤ 1) ∧
     (0 ≤ (((16 * (hexDigitVal 'f').getD 0 + (hexDigitVal 'f').getD 0 : ℕ) : ℚ) / 255) ∧
       (((16 * (hexDigitVal 'f').getD 0 + (hexDigitVal 'f').getD 0 : ℕ) : ℚ) / 255) ≤ 1) ∧
     (0 ≤ (((16 * (hexDigitVal 'f').getD 0 + (hexDigitVal 'f').getD 0 : ℕ) : ℚ) / 255) ∧
       (((16 * (hexDigitVal 'f').getD 0 + (hexDigitVal 'f').getD 0 : ℕ) : ℚ) / 255) ≤ 1) ∧
     hexToRgb ['f', 'f', 'f'] = hexToRgb ['f', 'f', 'f', 'f', 'f', 'f']) :=
  ⟨by decide,
   hexToRgb_wellFormed 'f' 'f' 'f' 'f' 'f' 'f'
     (by decide) (by decide) (by decide) (by decide) (by decide) (by decide)⟩

/-- C6 counterexample: the malformed 5-hex-digit input `"12345"` does not
produce any NaN channel; it silently yields the well-formed color
`(18/255, 52/255, 5/255)` with every channel in `[0,1]`. -/
theorem hexToRgb_five_hex_wellFormed :
    hexToRgb ['1', '2', '3', '4', '5'] =
      (some (18 / 255), some (52 / 255), some (5 / 255)) ∧
    (0 : ℚ) ≤ 18 / 255 ∧ (18 / 255 : ℚ) ≤ 1 ∧
    (0 : ℚ) ≤ 52 / 255 ∧ (52 / 255 : ℚ) ≤ 1 ∧
    (0 : ℚ) ≤ 5 / 255 ∧ (5 / 255 : ℚ) ≤ 1 :=
  ⟨by rfl, by norm_num, by norm_num, by norm_num, by norm_num, by norm_num,
   by norm_num⟩

lemma natChannel_bounds {m : ℕ} (h : m ≤ 255) :
    0 ≤ ((m : ℚ) / 255) ∧ (m : ℚ) / 255 ≤ 1 := by
  constructor
  · positivity
  · rw [div_le_one (by norm_num)]
    exact_mod_cast h

/-- C6 (amended): on all-hex-digit input, `hexToRgb` yields a NaN (`none`)
blue channel exactly when the digit string is shorter than 5 characters
and not of length 3 (the `substring(4,6)` pair is empty); for 5 or more
hex digits — including lengths 5 and ≥ 7, which the original claim calls
malformed — it instead silently returns a well-formed color with all
channels in `[0,1]`, built from the first six digits. -/
theorem hexToRgb_malformed (l : List Char)
    (hhex : ∀ c ∈ l, (hexDigitVal c).isSome) :
    (l.length ≤ 4 → l.length ≠ 3 → (hexToRgb l).2.2 = none) ∧
    (5 ≤ l.length → ∃ q0 q1 q2 : ℚ,
      hexToRgb l = (some q0, some q1, some q2) ∧
      0 ≤ q0 ∧ q0 ≤ 1 ∧ 0 ≤ q1 ∧ q1 ≤ 1 ∧ 0 ≤ q2 ∧ q2 ≤ 1) := by
  have hsh := stripHash_all_hex hhex
  constructor
  · intro hlen hne3
    have hdrop4 : l.drop 4 = [] := List.drop_eq_nil_iff.mpr hlen
    have h46 : jsSubstring l 4 6 = [] := by simp [jsSubstring, hdrop4]
    simp only [hexToRgb, hsh]
    rw [if_neg hne3]
    rw [h46]
    rfl
  · intro h5
    rcases l with _ | ⟨a, _ | ⟨b, _ | ⟨c, _ | ⟨d, _ | ⟨e, r⟩⟩⟩⟩⟩ <;>
      simp only [List.length_cons, List.length_nil] at h5 <;>
      try omega
    have ha : (hexDigitVal a).isSome := hhex a (by simp)
    have hb : (hexDigitVal b).isSome := hhex b (by simp)
    have hc : (hexDigitVal c).isSome := hhex c (by simp)
    have hd : (hexDigitVal d).isSome := hhex d (by simp)
    have he : (hexDigitVal e).isSome := hhex e (by simp)
    have hne3 : (a :: b :: c :: d :: e :: r).length ≠ 3 := by simp
    have s1 : jsSubstring (a :: b :: c :: d :: e :: r) 0 2 = [a, b] := rfl
    have s2 : jsSubstring (a :: b :: c :: d :: e :: r) 2 4 = [c, d] := rfl
    have hab := hexPair_parse a b ha hb
    have hcd := hexPair_parse c d hc hd
    have bab := hexChannel_bounds a b ha hb
    have bcd := hexChannel_bounds c d hc hd
    cases r with
    | nil =>
      have s3 : jsSubstring [a, b, c, d, e] 4 6 = [e] := rfl
      have hev : parseIntSixteen [e] = some ((hexNatVal [e] : ℕ) : ℤ) :=
        parseIntSixteen_all_hex (by simp)
          (by intro u hu
              simp only [List.mem_cons, List.not_mem_nil, or_false] at hu
              cases hu; subst_vars; exact he)
      have hbound : hexNatVal [e] ≤ 255 := by
        have := hexDigitVal_getD_le he
        simp only [hexNatVal, List.foldl_cons, List.foldl_nil]
        omega
      refine ⟨((16 * (hexDigitVal a).getD 0 + (hexDigitVal b).getD 0 : ℕ) : ℚ) / 255,
        ((16 * (hexDigitVal c).getD 0 + (hexDigitVal d).getD 0 : ℕ) : ℚ) / 255,
        ((hexNatVal [e] : ℕ) : ℚ) / 255, ?_,
        bab.1, bab.2, bcd.1, bcd.2, (natChannel_bounds hbound).1,
        (natChannel_bounds hbound).2⟩
      simp only [hexToRgb, hsh]
      rw [if_neg hne3]
      rw [s1, s2, s3, hab, hcd, hev]
      norm_num
    | cons f r' =>
      have hf : (hexDigitVal f).isSome := hhex f (by simp)
      have s3 : jsSubstring (a :: b :: c :: d :: e :: f :: r') 4 6 = [e, f] := rfl
      have hef := hexPair_parse e f he hf
      have bef := hexChannel_bounds e f he hf
      refine ⟨((16 * (hexDigitVal a).getD 0 + (hexDigitVal b).getD 0 : ℕ) : ℚ) / 255,
        ((16 * (hexDigitVal c).getD 0 + (hexDigitVal d).getD 0 : ℕ) : ℚ) / 255,
        ((16 * (hexDigitVal e).getD 0 + (hexDigitVal f).getD 0 : ℕ) : ℚ) / 255, ?_,
        bab.1, bab.2, bcd.1, bcd.2, bef.1, bef.2⟩
      simp only [hexToRgb, hsh]
      rw [if_neg hne3]
      rw [s1, s2, s3, hab, hcd, hef]
      norm_num

/-- Witness for C6 (amended): `"12"` has a NaN blue channel; `"12345"` is
returned as a well-formed color. -/
theorem hexToRgb_malformed_witness :
    (hexToRgb ['1', '2']).2.2 = none ∧
    (∃ q0 q1 q2 : ℚ,
      hexToRgb ['1', '2', '3', '4', '5'] = (some q0, some q1, some q2) ∧
      0 ≤ q0 ∧ q0 ≤ 1 ∧ 0 ≤ q1 ∧ q1 ≤ 1 ∧ 0 ≤ q2 ∧ q2 ≤ 1) :=
  ⟨(hexToRgb_malformed ['1', '2'] (by decide)).1 (by decide) (by decide),
   (hexToRgb_malformed ['1', '2', '3', '4', '5'] (by decide)).2 (by decide)⟩

/-- C7 counterexample: a container reporting `(0,0)` (with a zero-size
window, so the minimum-size policy engages) under scale factor `1/1000`
yields a physical height of `1/2 < 1`, violating the claimed `≥ 1×1`
invariant. -/
theorem resizeCanvas_tiny_scale_below_one :
    (resizeCanvas ⟨0, 0, 0, 0, 0, 0, 1/1000⟩ false false false).height = 1/2 ∧
    ¬(1 ≤ (resizeCanvas ⟨0, 0, 0, 0, 0, 0, 1/1000⟩ false false false).height) := by
  have hh : (resizeCanvas ⟨0, 0, 0, 0, 0, 0, 1/1000⟩ false false false).height =
      1/2 := by
    simp only [resizeCanvas, jsOrQ]
    norm_num
  rw [hh]
  norm_num

/-- C7 (amended): for nonnegative layout inputs and positive scale factor
`s`, `resizeCanvas` always produces strictly positive dimensions; a
container reporting positive `(w,h)` yields exactly `(w*s, h*s)`; and when
the width chain (offset, client, window) is entirely zero the minimum-size
fallback engages and yields dimensions `≥ 1×1` provided `s ≥ 1/500` —
for smaller scale factors the fallback height drops below 1. -/
theorem resizeCanvas_dimensions (e : ResizeEnv) (gl pg rl : Bool)
    (hiw : 0 ≤ e.innerW) (hih : 0 ≤ e.innerH) (hs : 0 < e.dpr) :
    (0 < (resizeCanvas e gl pg rl).width ∧ 0 < (resizeCanvas e gl pg rl).height) ∧
    (0 < e.offsetW → 0 < e.offsetH →
      (resizeCanvas e gl pg rl).width = e.offsetW * e.dpr ∧
      (resizeCanvas e gl pg rl).height = e.offsetH * e.dpr) ∧
    (e.offsetW = 0 ∧ e.clientW = 0 ∧ e.innerW = 0 → 1/500 ≤ e.dpr →
      1 ≤ (resizeCanvas e gl pg rl).width ∧
      1 ≤ (resizeCanvas e gl pg rl).height) := by
  have hpr : jsOrQ e.dpr 1 = e.dpr := by simp [jsOrQ, hs.ne']
  refine ⟨?_, ?_, ?_⟩
  · simp only [resizeCanvas]
    split_ifs with hcond
    · exact ⟨by simp only [hpr]; exact mul_pos hcond.1 hs,
        by simp only [hpr]; exact mul_pos hcond.2 hs⟩
    · constructor
      · simp only [hpr]
        exact mul_pos (lt_of_lt_of_le (by norm_num) (le_max_right e.innerW 1200)) hs
      · simp only [hpr]
        exact mul_pos (lt_of_lt_of_le (by norm_num) (le_max_left 500 (e.innerH * 0.6)))
          hs
  · intro h1 h2
    have hw : jsOrQ e.offsetW (jsOrQ e.clientW e.innerW) = e.offsetW := by
      simp [jsOrQ, h1.ne']
    have hh : jsOrQ e.offsetH (jsOrQ e.clientH e.innerH) = e.offsetH := by
      simp [jsOrQ, h2.ne']
    simp only [resizeCanvas, hw, hh]
    rw [if_pos ⟨h1, h2⟩]
    exact ⟨by simp [hpr], by simp [hpr]⟩
  · rintro ⟨hw0, hc0, hi0⟩ hdpr
    have hw : jsOrQ e.offsetW (jsOrQ e.clientW e.innerW) = 0 := by
      simp [jsOrQ, hw0, hc0, hi0]
    simp only [resizeCanvas, hw]
    rw [if_neg (by rintro ⟨h, -⟩; exact lt_irrefl 0 h)]
    constructor
    · simp only [hpr, hi0]
      rw [max_eq_right (by norm_num : (0:ℚ) ≤ 1200)]
      linarith
    · simp only [hpr]
      have h500 : (500:ℚ) ≤ max 500 (e.innerH * 0.6) := le_max_left _ _
      nlinarith [mul_nonneg (sub_nonneg.mpr h500) (sub_nonneg.mpr hdpr)]

/-- Witness for C7 (amended): `(800,600)` at scale 2 gives `(1600,1200)`;
an all-zero layout at scale 2 gives dimensions at least `1×1`. -/
theorem resizeCanvas_dimensions_witness :
    ((resizeCanvas ⟨800, 600, 0, 0, 1024, 768, 2⟩ true true true).width = 800 * 2 ∧
     (resizeCanvas ⟨800, 600, 0, 0, 1024, 768, 2⟩ true true true).height = 600 * 2) ∧
    (0 < (resizeCanvas ⟨800, 600, 0, 0, 1024, 768, 2⟩ true true true).width ∧
     0 < (resizeCanvas ⟨800, 600, 0, 0, 1024, 768, 2⟩ true true true).height) ∧
    (1 ≤ (resizeCanvas ⟨0, 0, 0, 0, 0, 768, 2⟩ false false false).width ∧
     1 ≤ (resizeCanvas ⟨0, 0, 0, 0, 0, 768, 2⟩ false false false).height) :=
  ⟨(resizeCanvas_dimensions ⟨800, 600, 0, 0, 1024, 768, 2⟩ true true true
      (by norm_num) (by norm_num) (by norm_num)).2.1 (by norm_num) (by norm_num),
   (resizeCanvas_dimensions ⟨800, 600, 0, 0, 1024, 768, 2⟩ true true true
      (by norm_num) (by norm_num) (by norm_num)).1,
   (resizeCanvas_dimensions ⟨0, 0, 0, 0, 0, 768, 2⟩ false false false
      (by norm_num) (by norm_num) (by norm_num)).2.2
      ⟨rfl, rfl, rfl⟩ (by norm_num)⟩

/-- C8 counterexample: with the GL pipeline fully initialized but a
zero-size layout (degenerate-size fallback engaged), `resizeCanvas`
resizes the backing buffer yet issues neither the viewport update nor the
resolution-uniform update in that invocation. -/
theorem resizeCanvas_fallback_skips_gl :
    (resizeCanvas ⟨0, 0, 0, 0, 0, 0, 1⟩ true true true).viewportUpdated = false ∧
    (resizeCanvas ⟨0, 0, 0, 0, 0, 0, 1⟩ true true true).resolutionUniformUpdated =
      false ∧
    (resizeCanvas ⟨0, 0, 0, 0, 0, 0, 1⟩ true true true).width = 1200 := by
  refine ⟨rfl, rfl, ?_⟩
  simp only [resizeCanvas, jsOrQ]
  norm_num

/-- C8 (amended): after GPU initialization, `resizeCanvas` updates the
viewport and the resolution uniform in the same invocation whenever the
measured container size is positive; when the degenerate-size fallback
engages, no GL state update is issued in that invocation. -/
theorem resizeCanvas_gl_updates (e : ResizeEnv) (gl pg rl : Bool) :
    (0 < jsOrQ e.offsetW (jsOrQ e.clientW e.innerW) →
     0 < jsOrQ e.offsetH (jsOrQ e.clientH e.innerH) →
      (resizeCanvas e gl pg rl).viewportUpdated = gl ∧
      (resizeCanvas e gl pg rl).resolutionUniformUpdated = (gl && (pg && rl))) ∧
    (¬(0 < jsOrQ e.offsetW (jsOrQ e.clientW e.innerW) ∧
       0 < jsOrQ e.offsetH (jsOrQ e.clientH e.innerH)) →
      (resizeCanvas e gl pg rl).viewportUpdated = false ∧
      (resizeCanvas e gl pg rl).resolutionUniformUpdated = false) := by
  constructor
  · intro h1 h2
    simp only [resizeCanvas]
    rw [if_pos ⟨h1, h2⟩]
    exact ⟨rfl, rfl⟩
  · intro hcond
    simp only [resizeCanvas]
    rw [if_neg hcond]
    exact ⟨rfl, rfl⟩

/-- Witness for C8 (amended): a positive 800×600 layout with the pipeline
ready issues both updates; the all-zero layout issues neither. -/
theorem resizeCanvas_gl_updates_witness :
    ((resizeCanvas ⟨800, 600, 0, 0, 1024, 768, 2⟩ true true true).viewportUpdated =
        true ∧
      (resizeCanvas ⟨800, 600, 0, 0, 1024, 768, 2⟩ true true
        true).resolutionUniformUpdated = (true && (true && true))) ∧
    ((resizeCanvas ⟨0, 0, 0, 0, 0, 0, 2⟩ true true true).viewportUpdated = false ∧
      (resizeCanvas ⟨0, 0, 0, 0, 0, 0, 2⟩ true true true).resolutionUniformUpdated =
        false) :=
  ⟨(resizeCanvas_gl_updates ⟨800, 600, 0, 0, 1024, 768, 2⟩ true true true).1
      (by norm_num [jsOrQ]) (by norm_num [jsOrQ]),
   (resizeCanvas_gl_updates ⟨0, 0, 0, 0, 0, 0, 2⟩ true true true).2
      (by norm_num [jsOrQ])⟩

/-- C9: with three color stops the degraded renderer builds a horizontal
linear gradient whose stop `i` sits at offset `i/(3-1) = i/2`, and every
tick repaints exactly the full surface with that gradient and nothing
else — the paint sequence does not depend on the tick index. -/
theorem fallbackTick_static_gradient (w h : ℚ) (c0 c1 c2 : List Char) (t t' : ℕ) :
    buildFallbackGradient w [c0, c1, c2] =
      { x0 := 0, y0 := 0, x1 := w, y1 := 0,
        stops := [(0, c0), (1/2, c1), (1, c2)] } ∧
    fallbackTick w h [c0, c1, c2] t =
      [PaintOp.clearRect 0 0 w h,
       PaintOp.fillRect 0 0 w h (buildFallbackGradient w [c0, c1, c2])] ∧
    fallbackTick w h [c0, c1, c2] t = fallbackTick w h [c0, c1, c2] t' := by
  refine ⟨?_, rfl, rfl⟩
  simp only [buildFallbackGradient, List.enum, Gradient.mk.injEq]
  norm_num

/-- C10: because numeric options are merged with `||`, explicitly passing
the falsy value 0 for blend, amplitude or speed silently yields the
default (0.5, 1.0, 0.5); hence the merged amplitude and speed can never be
0; and a falsy `colorStops` value is replaced by the default triple. -/
theorem mergeOptions_falsy (o : AuroraOptions) :
    (o.blend = some 0 → (mergeOptions o).blend = 0.5) ∧
    (o.amplitude = some 0 → (mergeOptions o).amplitude = 1.0) ∧
    (o.speed = some 0 → (mergeOptions o).speed = 0.5) ∧
    (mergeOptions o).amplitude ≠ 0 ∧
    (mergeOptions o).speed ≠ 0 ∧
    (o.colorStops = none → (mergeOptions o).colorStops = defaultColorStops) := by
  refine ⟨?_, ?_, ?_, ?_, ?_, ?_⟩
  · intro hb; simp [mergeOptions, jsOrOpt, hb]
  · intro ha; simp [mergeOptions, jsOrOpt, ha]
  · intro hsp; simp [mergeOptions, jsOrOpt, hsp]
  · cases ha : o.amplitude with
    | none => norm_num [mergeOptions, jsOrOpt, ha]
    | some x =>
      by_cases hx : x = 0 <;> norm_num [mergeOptions, jsOrOpt, ha, hx]
  · cases hsp : o.speed with
    | none => norm_num [mergeOptions, jsOrOpt, hsp]
    | some x =>
      by_cases hx : x = 0 <;> norm_num [mergeOptions, jsOrOpt, hsp, hx]
  · intro hcs; simp [mergeOptions, hcs]

/-- Witness for C10: explicitly passing 0 for blend, amplitude and speed
(and nothing for colorStops) produces exactly the defaults. -/
theorem mergeOptions_falsy_witness :
    (mergeOptions ⟨none, some 0, some 0, some 0⟩).blend = 0.5 ∧
    (mergeOptions ⟨none, some 0, some 0, some 0⟩).amplitude = 1.0 ∧
    (mergeOptions ⟨none, some 0, some 0, some 0⟩).speed = 0.5 ∧
    (mergeOptions ⟨none, some 0, some 0, some 0⟩).amplitude ≠ 0 ∧
    (mergeOptions ⟨none, some 0, some 0, some 0⟩).speed ≠ 0 ∧
    (mergeOptions ⟨none, some 0, some 0, some 0⟩).colorStops = defaultColorStops :=
  ⟨(mergeOptions_falsy ⟨none, some 0, some 0, some 0⟩).1 rfl,
   (mergeOptions_falsy ⟨none, some 0, some 0, some 0⟩).2.1 rfl,
   (mergeOptions_falsy ⟨none, some 0, some 0, some 0⟩).2.2.1 rfl,
   (mergeOptions_falsy ⟨none, some 0, some 0, some 0⟩).2.2.2.1,
   (mergeOptions_falsy ⟨none, some 0, some 0, some 0⟩).2.2.2.2.1,
   (mergeOptions_falsy ⟨none, some 0, some 0, some 0⟩).2.2.2.2.2 rfl⟩
